import Mathlib

/-!
Verification of the `RiotPipeline` ingestion pipeline
(`src/pipeline/pipeline_workflow.py`) against its natural-language
specification.  The Python class is shallowly embedded below: each Lean
definition carries a doc comment naming the source function and lines it
translates.  Database tables are modelled as association lists keyed by
their declared primary key, Python exceptions as `Except`, Python `None`
as `Option.none`.
-/

namespace RiotPipeline

/- ## Stage 1 / Stage 2 batched writes (`_collect_summoner_entries_by_tier`,
`_collect_match_id_by_puuid`) -/

/-- A stored table row, reduced to (primary-key column, remaining columns).
For `Summoners_Table` the key is `puuid`, for `Match_ID_Table` it is
`matchId`; the non-key columns are collapsed into one payload string since
no claim depends on their structure. -/
abbrev Row := String × String

/-- One `INSERT OR IGNORE` of a single row, keyed by the primary key:
if a row with the same key exists the insert is a silent no-op, otherwise
the row is appended.  This is SQLite's semantics for the
`INSERT OR IGNORE INTO Summoners_Table ...` statement at
pipeline_workflow.py:407-413 (and the Stage 3/4 inserts, lines 733-801 and
975-989, which use the same `OR IGNORE` form). -/
def insertOrIgnoreRow (table : List Row) (row : Row) : List Row :=
  if table.any (fun q => q.1 = row.1) then table else table ++ [row]

/-- `cursor.executemany` of an `INSERT OR IGNORE` statement: each row of the
batch is inserted-if-absent in order. -/
def insertOrIgnoreBatch (table rows : List Row) : List Row :=
  rows.foldl insertOrIgnoreRow table

/-- `cursor.executemany` of a plain `INSERT` statement (no `OR IGNORE`),
as issued by Stage 2 at pipeline_workflow.py:533-538: the first row whose
primary key duplicates an existing or earlier-in-batch row raises
`sqlite3.IntegrityError`; the surrounding `with` block then rolls the
transaction back, so on error the table is unchanged. -/
def insertBatchPlain : List Row → List Row → Except Unit (List Row)
  | t, [] => Except.ok t
  | t, r :: rest =>
      if t.any (fun q => q.1 = r.1) then Except.error ()
      else insertBatchPlain (t ++ [r]) rest

/-- Stage 1's batch write (pipeline_workflow.py:404-420 and 470-485):
`INSERT OR IGNORE INTO Summoners_Table`. -/
def stage1InsertBatch (table rows : List Row) : List Row :=
  insertOrIgnoreBatch table rows

/-- Stage 2's batch write (pipeline_workflow.py:529-547): a plain
`INSERT INTO Match_ID_Table`; the `sqlite3.IntegrityError` raised on a
duplicate `matchId` is caught and logged, and the rolled-back batch is
simply dropped. -/
def stage2InsertBatch (table rows : List Row) : List Row :=
  match insertBatchPlain table rows with
  | Except.ok t => t
  | Except.error _ => table

/- ## Majority-vote tier (`_get_majority_tier`, pipeline_workflow.py:549-577) -/

/-- Outcome of one `CallsAPI.get_summoner_tier_from_puuid` call as seen by
`_get_majority_tier`: the call either returns a value (possibly Python
`None`, modelled as `Option.none`) or raises, in which case the `except`
clause only logs. -/
inductive TierLookup where
  | ret (t : Option String)
  | exc
deriving DecidableEq, Repr

/-- Python exceptions that `_get_majority_tier` itself can raise:
`NameError` when `if tier:` reads the local `tier` before any assignment
(first lookup raised), and `ValueError` from `max()` on an empty dict. -/
inductive PyError where
  | nameError
  | valueError
deriving DecidableEq, Repr

/-- Python truthiness of the `tier` value: `None` and the empty string are
falsy, any other string is truthy.  A truthy value is the vote cast. -/
def voteOf : Option String → Option String
  | none => none
  | some s => if s = "" then none else some s

/-- `tier_freq_dict[tier] = tier_freq_dict.get(tier, 0) + 1` on a dict kept
in insertion order (Python dicts preserve insertion order). -/
def bumpFreq : List (String × Nat) → String → List (String × Nat)
  | [], t => [(t, 1)]
  | (k, n) :: rest, t =>
      if k = t then (k, n + 1) :: rest else (k, n) :: bumpFreq rest t

/-- The vote-accumulation loop of `_get_majority_tier`
(pipeline_workflow.py:564-575).  The first state component is the Python
local variable `tier`: `none` while still unbound, `some v` once assigned.
On a raised lookup the variable keeps its previous value (the `except`
clause only logs), and the following `if tier:` either raises `NameError`
(variable still unbound) or re-counts the stale value. -/
def majorityLoop :
    Option (Option String) → List (String × Nat) → List TierLookup →
      Except PyError (List (String × Nat))
  | _, freq, [] => Except.ok freq
  | _, freq, TierLookup.ret t :: rest =>
      majorityLoop (some t)
        (match voteOf t with
         | some s => bumpFreq freq s
         | none => freq) rest
  | none, _, TierLookup.exc :: _ => Except.error PyError.nameError
  | some t, freq, TierLookup.exc :: rest =>
      majorityLoop (some t)
        (match voteOf t with
         | some s => bumpFreq freq s
         | none => freq) rest

/-- The tier-frequency dict built by `_get_majority_tier` just before the
final `max(...)`. -/
def getMajorityFreq (lookups : List TierLookup) :
    Except PyError (List (String × Nat)) :=
  majorityLoop none [] lookups

/-- Auxiliary for Python `max(d, key=d.get)`: keeps the first key attaining
the maximal count (later keys replace only on a strictly greater count). -/
def maxKeyAux (k : String) (n : Nat) : List (String × Nat) → String
  | [] => k
  | (k2, n2) :: rest =>
      if n < n2 then maxKeyAux k2 n2 rest else maxKeyAux k n rest

/-- Python `max(tier_freq_dict, key=tier_freq_dict.get)`
(pipeline_workflow.py:577): on an empty dict `max()` raises
`ValueError: max() arg is an empty sequence`. -/
def pyMaxByVal : List (String × Nat) → Except PyError String
  | [] => Except.error PyError.valueError
  | (k, n) :: rest => Except.ok (maxKeyAux k n rest)

/-- `_get_majority_tier` end to end: accumulate votes, then take the
maximum-frequency key. -/
def getMajorityTier (lookups : List TierLookup) : Except PyError String :=
  (getMajorityFreq lookups).bind pyMaxByVal

/-- Modelled from the spec (comparison definition for C5): "the multiset of
tiers returned by the successful lookups" — one vote per lookup that
returned a truthy tier, no vote for a raised or empty lookup. -/
def successfulVotes (lookups : List TierLookup) : List String :=
  lookups.filterMap fun l =>
    match l with
    | TierLookup.ret t => voteOf t
    | TierLookup.exc => none

/- ## Stage 3 / Stage 4 match loops -/

/-- The iteration structure of `_collect_match_data_by_matchId`
(pipeline_workflow.py:612-727): `for i, match_id in enumerate(match_ids)`
fully processes match `i` (fetch detail, extract team and participant
rows), then executes `if i == 1: break`.  The result is the list of match
ids that actually get fetched and extracted. -/
def stage3Loop : Nat → List String → List String
  | _, [] => []
  | i, m :: rest => m :: (if i = 1 then [] else stage3Loop (i + 1) rest)

/-- Match ids processed by Stage 3, in the order they were read from
`Match_ID_Table`. -/
def stage3ProcessedMatchIds (matchIds : List String) : List String :=
  stage3Loop 0 matchIds

/-- The iteration structure of `_collect_match_timeline_by_matchId`
(pipeline_workflow.py:874-969): `for iter_, match_id in
enumerate(match_ids)` fully processes match `iter_` (fetch the timeline,
emit events), then executes `if iter_ == 0: break`. -/
def stage4Loop : Nat → List String → List String
  | _, [] => []
  | i, m :: rest => m :: (if i = 0 then [] else stage4Loop (i + 1) rest)

/-- Match ids processed by Stage 4, in the order of the distinct ids read
from `Match_Data_Participants_Table`. -/
def stage4ProcessedMatchIds (matchIds : List String) : List String :=
  stage4Loop 0 matchIds

/- ## Stage 4 timeline reconstruction
(`_get_teamId_teamPos`, pipeline_workflow.py:812-842, and the frame/event
loops of `_collect_match_timeline_by_matchId`, pipeline_workflow.py:891-963)
-/

/-- The `Match_Data_Participants_Table` read by `_get_teamId_teamPos`,
as a lookup function: `db puuid matchId` is the `(teamId, teamPosition)`
row for that composite key, or `none` when no row exists. -/
abbrev DB := String → String → Option (Int × String)

/-- The `participant_ids` dict of `_collect_match_timeline_by_matchId`
as a lookup function from in-game id to puuid. -/
abbrev PMap := Int → Option String

/-- Python string interpolation of a possibly-`None` puuid into the SQL
text of `_get_teamId_teamPos` (an f-string renders `None` as "None"). -/
def pyStr : Option String → String
  | none => "None"
  | some s => s

/-- `_get_teamId_teamPos(puuid, match_id)` (pipeline_workflow.py:812-842),
instrumented: the second component records whether a SQL query was
executed.  The `"Minion"` sentinel short-circuits to `(None, "")` with no
query; otherwise the participants table is queried and an empty result
yields Python `None` (modelled `Option.none`). -/
def getTeamIdTeamPosInstr (db : DB) (puuid : Option String)
    (matchId : String) : Option (Option Int × String) × Bool :=
  if puuid = some "Minion" then (some (none, ""), false)
  else (((db (pyStr puuid) matchId).map fun p => (some p.1, p.2)), true)

/-- `_get_teamId_teamPos` without the instrumentation. -/
def getTeamIdTeamPos (db : DB) (puuid : Option String)
    (matchId : String) : Option (Option Int × String) :=
  (getTeamIdTeamPosInstr db puuid matchId).1

/-- `participant_ids` built at pipeline_workflow.py:880-885: the dict is
seeded with `0 ↦ "Minion"`, then each participant's
`participantId ↦ puuid` entry is added (later entries overwrite). -/
def buildParticipantIds (ps : List (Int × String)) : PMap :=
  fun k =>
    ((0, "Minion") :: ps).foldl
      (fun acc q => if q.1 = k then some q.2 else acc) none

/-- One timeline event as read from the frame stream.  Fields mirror
`event.get(...)` calls: absent keys are Python `None` (`Option.none`). -/
structure Event where
  type_ : String
  killerId : Option Int
  killerTeamId : Option Int
  teamId : Option Int
  monsterType : Option String
  buildingType : Option String
  posX : Option Int
  posY : Option Int
  timestamp : Option Int
deriving DecidableEq, Repr

/-- One row destined for `Match_Timeline_Table`, in the column order of the
tuple built at pipeline_workflow.py:934-935 and 961-962. -/
structure TimelineEvent where
  matchId : String
  puuId : Option String
  teamId : Option Int
  inGameId : Option Int
  teamPosition : String
  x : Option Int
  y : Option Int
  timestamp : Option Int
  event : String
  type_ : Option String
deriving DecidableEq, Repr

/-- The default `eventTypesToConsider` allow-list
(pipeline_workflow.py:70-72). -/
def eventTypesToConsider : List String :=
  ["ELITE_MONSTER_KILL", "CHAMPION_KILL", "BUILDING_KILL"]

/-- What processing one event does to the surrounding loop: emit a row,
contribute nothing, or `break` out of the frame's event loop. -/
inductive EventResult where
  | emit (te : TimelineEvent)
  | skip
  | brk
deriving DecidableEq, Repr

/-- The `puuid_e` resolution of pipeline_workflow.py:898-903:
`killerId == 0` resolves to the `"Minion"` sentinel without consulting
`participant_ids`; any other id is looked up in the dict (an absent
`killerId`, Python `None`, misses the dict and yields `None`). -/
def resolveActor (pmap : PMap) (killerId : Option Int) : Option String :=
  if killerId = some 0 then some "Minion"
  else
    match killerId with
    | some k => pmap k
    | none => none

/-- Processing of one event inside the frame loop
(pipeline_workflow.py:893-938), instrumented: the second component records
whether a participants-table query was executed for this event.
A `None` lookup result triggers the
`teamId_teamPos_e == None and puuid_e != "Minion"` branch, which warns and
breaks; when the result is `None` the actor is never the minion (the
minion branch of `_get_teamId_teamPos` always returns a value), so that
conjunct is automatically true there.  With the default allow-list, a
considered event that is neither an elite-monster nor a champion kill is a
building kill, so the final branch is the `BUILDING_KILL` case. -/
def processEventInstr (db : DB) (pmap : PMap) (matchId : String)
    (e : Event) : EventResult × Bool :=
  if e.type_ ∈ eventTypesToConsider then
    match getTeamIdTeamPosInstr db (resolveActor pmap e.killerId) matchId with
    | (none, q) => (EventResult.brk, q)
    | (some tp, q) =>
        if e.type_ = "ELITE_MONSTER_KILL" then
          (EventResult.emit ⟨matchId, resolveActor pmap e.killerId,
            e.killerTeamId, e.killerId, tp.2, e.posX, e.posY, e.timestamp,
            e.type_, e.monsterType⟩, q)
        else if e.type_ = "CHAMPION_KILL" then
          (EventResult.emit ⟨matchId, resolveActor pmap e.killerId,
            tp.1, e.killerId, tp.2, e.posX, e.posY, e.timestamp,
            e.type_, some "KILL"⟩, q)
        else
          (EventResult.emit ⟨matchId, resolveActor pmap e.killerId,
            e.teamId, e.killerId, tp.2, e.posX, e.posY, e.timestamp,
            e.type_, e.buildingType⟩, q)
  else (EventResult.skip, false)

/-- `processEventInstr` without the instrumentation. -/
def processEvent (db : DB) (pmap : PMap) (matchId : String)
    (e : Event) : EventResult :=
  (processEventInstr db pmap matchId e).1

/-- The `for event in frame['events']` loop: emitted rows in order, with
`break` (a failed resolution) discarding the rest of the frame's events. -/
def processEventsLoop (db : DB) (pmap : PMap) (matchId : String) :
    List Event → List TimelineEvent
  | [] => []
  | e :: rest =>
      match processEvent db pmap matchId e with
      | EventResult.emit te => te :: processEventsLoop db pmap matchId rest
      | EventResult.skip => processEventsLoop db pmap matchId rest
      | EventResult.brk => []

/-- One entry of `frame['participantFrames']`: the dict key (an in-game id,
converted with `int()` before the `participant_ids` lookup) and the
sampled position. -/
structure PFrame where
  participantId : Int
  posX : Int
  posY : Int
deriving DecidableEq, Repr

/-- Processing of one participant-frame sample
(pipeline_workflow.py:941-963), instrumented like `processEventInstr`.
A `None` resolution warns and breaks out of the sample loop; otherwise a
row with `event = "POSITION"`, `type = "PARTICIPANT_FRAME"` and the
frame's shared timestamp is emitted. -/
def processPFrameInstr (db : DB) (pmap : PMap) (matchId : String)
    (ts : Int) (pf : PFrame) : EventResult × Bool :=
  match getTeamIdTeamPosInstr db (pmap pf.participantId) matchId with
  | (none, q) => (EventResult.brk, q)
  | (some tp, q) =>
      (EventResult.emit ⟨matchId, pmap pf.participantId, tp.1,
        some pf.participantId, tp.2, some pf.posX, some pf.posY, some ts,
        "POSITION", some "PARTICIPANT_FRAME"⟩, q)

/-- `processPFrameInstr` without the instrumentation. -/
def processPFrame (db : DB) (pmap : PMap) (matchId : String)
    (ts : Int) (pf : PFrame) : EventResult :=
  (processPFrameInstr db pmap matchId ts pf).1

/-- The `for participantId, participantFrame in ...` loop with its `break`
on a failed resolution. -/
def processPFramesLoop (db : DB) (pmap : PMap) (matchId : String)
    (ts : Int) : List PFrame → List TimelineEvent
  | [] => []
  | pf :: rest =>
      match processPFrame db pmap matchId ts pf with
      | EventResult.emit te =>
          te :: processPFramesLoop db pmap matchId ts rest
      | EventResult.skip => processPFramesLoop db pmap matchId ts rest
      | EventResult.brk => []

/-- One timeline frame: its event list, shared timestamp, and participant
samples. -/
structure Frame where
  events : List Event
  timestamp : Int
  participantFrames : List PFrame
deriving DecidableEq, Repr

/-- Processing of one frame (pipeline_workflow.py:891-963): all its events
first, then all its participant samples — a `break` in the event loop does
not affect the sample loop. -/
def processFrame (db : DB) (pmap : PMap) (matchId : String)
    (fr : Frame) : List TimelineEvent :=
  processEventsLoop db pmap matchId fr.events ++
    processPFramesLoop db pmap matchId fr.timestamp fr.participantFrames

/- ## Stage 3 goldPerMinute unit correction
(pipeline_workflow.py:671-677) -/

/-- Python truthiness of `match_data["info"].get("gameEndTimestamp", 0)`:
an absent key defaults to `0`, and `0` is falsy. -/
def intTruthy : Option Int → Bool
  | none => false
  | some n => n != 0

/-- The `game_duration` local of `_collect_match_data_by_matchId`
(pipeline_workflow.py:671-674): minutes `= gameDuration / 60` when a
truthy end-timestamp is present, else `gameDuration * 0.1 / 60`
(the tenths-of-a-second branch), over exact rationals. -/
def gameDurationMinutes (gameDuration : ℚ) (gameEndTimestamp : Option Int) : ℚ :=
  if intTruthy gameEndTimestamp then gameDuration / 60
  else gameDuration * (1 / 10) / 60

/-- `gold_per_minute = participant["goldEarned"] / game_duration`
(pipeline_workflow.py:677). -/
def goldPerMinute (goldEarned gameDuration : ℚ)
    (gameEndTimestamp : Option Int) : ℚ :=
  goldEarned / gameDurationMinutes gameDuration gameEndTimestamp

/- ## Constructor stage-flag validation and `_collect_data`
(pipeline_workflow.py:85-89, 999-1020, 1022-1032) -/

/-- The `__init__` validation loop (pipeline_workflow.py:85-89):
`for value in stages: if value not in (0, 1) or len(stages) > 4: raise`.
`true` means a `ValueError` is raised. -/
def stagesConfigError (stages : List Int) : Bool :=
  stages.any fun v => !(v == 0 || v == 1) || decide (4 < stages.length)

/-- One stage dispatch of `_collect_data`: indexing
`self.stages_to_process[i]` raises `IndexError` when out of range
(the error payload is the list of stage numbers already run); otherwise
the `process_decorator` runs the stage when the flag equals 1 and skips it
otherwise. -/
def runStageStep (stages : List Int) (acc : List Nat) (i : Nat) :
    Except (List Nat) (List Nat) :=
  match stages[i]? with
  | none => Except.error acc
  | some v => Except.ok (if v = 1 then acc ++ [i + 1] else acc)

/-- `_collect_data` (pipeline_workflow.py:999-1020): the four stage
dispatches in order.  `Except.ok runs` is a completed run, `Except.error
runs` an `IndexError` after the stages in `runs` already executed. -/
def collectData (stages : List Int) : Except (List Nat) (List Nat) := do
  let a ← runStageStep stages [] 0
  let b ← runStageStep stages a 1
  let c ← runStageStep stages b 2
  let d ← runStageStep stages c 3
  Except.ok d

/-- Observable steps of `start_pipeline`. -/
inductive PipeStep where
  | createDatabase
  | createTables
  | runStage (n : Nat)
  | indexError
deriving DecidableEq, Repr

/-- `start_pipeline` (pipeline_workflow.py:1022-1032): create the database
and schema, then `_collect_data`, whose `IndexError` (if any) surfaces
after the earlier stages already ran. -/
def startPipelineTrace (stages : List Int) : List PipeStep :=
  [PipeStep.createDatabase, PipeStep.createTables] ++
    (match collectData stages with
     | Except.ok runs => runs.map PipeStep.runStage
     | Except.error runs => runs.map PipeStep.runStage ++ [PipeStep.indexError])

/- ## Concrete fixtures used by witnesses and counterexamples -/

/-- A participants table holding one row: player `P1` in match `M1` on
team 100 in position TOP. -/
def dbA : DB :=
  fun p m => if p = "P1" ∧ m = "M1" then some (100, "TOP") else none

/-- An adversarial participants table answering every query, to exhibit
that the minion path never consults it. -/
def dbAdv : DB := fun _ _ => some (999, "MID")

/-- `participant_ids` for a match whose in-game id 1 is `P1` and whose
in-game id 5 is `P9` (who has no stored participant row in `dbA`). -/
def pmapA : PMap := buildParticipantIds [(1, "P1"), (5, "P9")]

def evChampGood : Event :=
  ⟨"CHAMPION_KILL", some 1, none, none, none, none, some 10, some 20, some 5000⟩

def evChampBad : Event :=
  ⟨"CHAMPION_KILL", some 5, none, none, none, none, some 1, some 2, some 6000⟩

def evChampMinion : Event :=
  ⟨"CHAMPION_KILL", some 0, none, none, none, none, some 3, some 4, some 7000⟩

/-- A building kill whose payload `teamId` (200, the losing team) differs
from the killer's stored team (100). -/
def evBuild : Event :=
  ⟨"BUILDING_KILL", some 1, none, some 200, none, some "TOWER_BUILDING",
    some 30, some 40, some 8000⟩

def teChampGood : TimelineEvent :=
  ⟨"M1", some "P1", some 100, some 1, "TOP", some 10, some 20, some 5000,
    "CHAMPION_KILL", some "KILL"⟩

def teChampMinion : TimelineEvent :=
  ⟨"M1", some "Minion", none, some 0, "", some 3, some 4, some 7000,
    "CHAMPION_KILL", some "KILL"⟩

def teBuildEmitted : TimelineEvent :=
  ⟨"M1", some "P1", some 200, some 1, "TOP", some 30, some 40, some 8000,
    "BUILDING_KILL", some "TOWER_BUILDING"⟩

def tePosGood : TimelineEvent :=
  ⟨"M1", some "P1", some 100, some 1, "TOP", some 100, some 200, some 60000,
    "POSITION", some "PARTICIPANT_FRAME"⟩

def pfGood : PFrame := ⟨1, 100, 200⟩

def pfBad : PFrame := ⟨5, 7, 8⟩

/- ## Claims -/

/-- C1: the claim says Stage 3 processes every matchId read from
`Match_ID_Table` and Stage 4 every distinct matchId with stored
participants.  The code violates this: Stage 3's `if i == 1: break`
(pipeline_workflow.py:726-727) stops after the first two matches, and
Stage 4's `if iter_ == 0: break` (pipeline_workflow.py:968-969) stops
after the first match.  This theorem evaluates both loops at the failing
inputs: with three stored matches Stage 3 skips `m3`, and with two
participant matches Stage 4 skips `m2`. -/
theorem c1_loop_break_skips_matches :
    stage3ProcessedMatchIds ["m1", "m2", "m3"] = ["m1", "m2"] ∧
    stage4ProcessedMatchIds ["m1", "m2"] = ["m1"] :=
  ⟨rfl, rfl⟩

/-- C3: the claim says every stage's write is insert-if-absent keyed by
the primary key, so duplicates are silently dropped and never discard the
batch.  Stage 1 conforms (first conjunct: the duplicate `p1` row is
ignored and the fresh `p2` row inserted), but Stage 2's plain
`INSERT INTO Match_ID_Table` raises `sqlite3.IntegrityError` on the
duplicate `m1` (second conjunct) and the caught error discards the whole
batch, losing the brand-new row `m2` as well (third conjunct). -/
theorem c3_stage2_plain_insert_drops_batch :
    stage1InsertBatch [("p1", "GOLD")] [("p1", "SILVER"), ("p2", "GOLD")] =
      [("p1", "GOLD"), ("p2", "GOLD")] ∧
    insertBatchPlain [("m1", "p1")] [("m1", "p2"), ("m2", "p2")] =
      Except.error () ∧
    stage2InsertBatch [("m1", "p1")] [("m1", "p2"), ("m2", "p2")] =
      [("m1", "p1")] :=
  ⟨rfl, rfl, rfl⟩

/-- C4: the claim says an all-empty vote set surfaces an explicit
no-tier-data condition rather than an unrelated error.  The code instead
reaches `max(tier_freq_dict, key=...)` with an empty dict and raises
Python's `ValueError: max() arg is an empty sequence` — exactly the
max-of-empty-collection error the claim excludes.  Evaluated here on two
lookups that both return `None` (zero votes succeed). -/
theorem c4_empty_votes_value_error :
    getMajorityTier [TierLookup.ret none, TierLookup.ret none] =
      Except.error PyError.valueError :=
  rfl

/-- C5: the claim says a failed lookup contributes no vote and never
re-counts a previously fetched tier.  In the code a raised lookup leaves
the stale local `tier` bound to the previous participant's value, and the
following `if tier:` counts it again: after a successful GOLD lookup and
one raised lookup the frequency dict is `{GOLD: 2}`, while the multiset of
tiers returned by successful lookups is `[GOLD]` (one vote). -/
theorem c5_stale_tier_recount :
    getMajorityFreq [TierLookup.ret (some "GOLD"), TierLookup.exc] =
      Except.ok [("GOLD", 2)] ∧
    successfulVotes [TierLookup.ret (some "GOLD"), TierLookup.exc] =
      ["GOLD"] :=
  ⟨rfl, rfl⟩

/-- C6: goldPerMinute unit correction.  With a present non-zero
end-timestamp minutes are `gameDuration / 60` (1800 gives 30); with an
absent end-timestamp `gameDuration` is tenths of a second, and
`gameDuration * 0.1 / 60 = gameDuration / 600` (1800 gives 3); each
participant's goldPerMinute is goldEarned divided by that minutes value. -/
theorem c6_gold_per_minute_units :
    (∀ (d : ℚ) (ts : Int), ts ≠ 0 →
        gameDurationMinutes d (some ts) = d / 60) ∧
    (∀ d : ℚ, gameDurationMinutes d none = d / 600) ∧
    gameDurationMinutes 1800 (some 1) = 30 ∧
    gameDurationMinutes 1800 none = 3 ∧
    (∀ (g d : ℚ) (e : Option Int),
        goldPerMinute g d e = g / gameDurationMinutes d e) := by
  refine ⟨?_, ?_, ?_, ?_, fun g d e => rfl⟩
  · intro d ts h
    simp [gameDurationMinutes, intTruthy, h]
  · intro d
    simp only [gameDurationMinutes, intTruthy, Bool.false_eq_true, if_false]
    ring
  · norm_num [gameDurationMinutes, intTruthy]
  · norm_num [gameDurationMinutes, intTruthy]

/-- Witness for C6 at a concrete input: gameDuration 1800 with the
non-zero end-timestamp 5 yields 1800 / 60 minutes. -/
theorem c6_witness : gameDurationMinutes 1800 (some 5) = 1800 / 60 :=
  c6_gold_per_minute_units.1 1800 5 (by decide)

/-- C2 counterexample: the claim says a failed resolution drops exactly
that one event (or sample) and every other event and sample in the same
frame is still emitted.  With `evChampBad` (killer `P9`, no stored row)
followed by `evChampGood` (killer `P1`, resolvable), the `break` at
pipeline_workflow.py:915 empties the whole event list even though
`evChampGood` alone would be emitted; the sample loop's `break` at
pipeline_workflow.py:952 does the same to `pfGood`. -/
theorem c2_break_counterexample :
    processEventsLoop dbA pmapA "M1" [evChampBad, evChampGood] = [] ∧
    processEvent dbA pmapA "M1" evChampGood = EventResult.emit teChampGood ∧
    processPFramesLoop dbA pmapA "M1" 60000 [pfBad, pfGood] = [] ∧
    processPFrame dbA pmapA "M1" 60000 pfGood = EventResult.emit tePosGood :=
  ⟨rfl, rfl, rfl, rfl⟩

/-- C2 (amended): when resolution fails for a non-minion actor, that event
and all remaining events of the same frame's event list are dropped with a
warning — events of the frame processed before the failure are kept, and
the frame's participant position samples are still processed (first and
third conjuncts); likewise a failed sample drops itself and the remaining
samples of that frame only (second conjunct).  Later frames are processed
independently. -/
theorem c2_resolution_failure_break :
    (∀ (db : DB) (pmap : PMap) (mid : String) (evts₁ : List Event)
        (e : Event) (evts₂ : List Event),
        (∀ e2 ∈ evts₁, processEvent db pmap mid e2 ≠ EventResult.brk) →
        processEvent db pmap mid e = EventResult.brk →
        processEventsLoop db pmap mid (evts₁ ++ e :: evts₂) =
          processEventsLoop db pmap mid evts₁) ∧
    (∀ (db : DB) (pmap : PMap) (mid : String) (ts : Int)
        (pfs₁ : List PFrame) (pf : PFrame) (pfs₂ : List PFrame),
        (∀ p2 ∈ pfs₁, processPFrame db pmap mid ts p2 ≠ EventResult.brk) →
        processPFrame db pmap mid ts pf = EventResult.brk →
        processPFramesLoop db pmap mid ts (pfs₁ ++ pf :: pfs₂) =
          processPFramesLoop db pmap mid ts pfs₁) ∧
    (∀ (db : DB) (pmap : PMap) (mid : String) (fr : Frame),
        processFrame db pmap mid fr =
          processEventsLoop db pmap mid fr.events ++
            processPFramesLoop db pmap mid fr.timestamp fr.participantFrames) := by
  refine ⟨?_, ?_, fun db pmap mid fr => rfl⟩
  · intro db pmap mid evts₁ e evts₂ h1 h2
    induction evts₁ with
    | nil => simp [processEventsLoop, h2]
    | cons a as ih =>
      have ha := h1 a (List.mem_cons_self a as)
      have h1a : ∀ e2 ∈ as, processEvent db pmap mid e2 ≠ EventResult.brk :=
        fun e2 he2 => h1 e2 (List.mem_cons_of_mem _ he2)
      cases hpa : processEvent db pmap mid a with
      | brk => exact absurd hpa ha
      | emit te => simpa [processEventsLoop, hpa] using ih h1a
      | skip => simpa [processEventsLoop, hpa] using ih h1a
  · intro db pmap mid ts pfs₁ pf pfs₂ h1 h2
    induction pfs₁ with
    | nil => simp [processPFramesLoop, h2]
    | cons a as ih =>
      have ha := h1 a (List.mem_cons_self a as)
      have h1a : ∀ p2 ∈ as, processPFrame db pmap mid ts p2 ≠ EventResult.brk :=
        fun p2 hp2 => h1 p2 (List.mem_cons_of_mem _ hp2)
      cases hpa : processPFrame db pmap mid ts a with
      | brk => exact absurd hpa ha
      | emit te => simpa [processPFramesLoop, hpa] using ih h1a
      | skip => simpa [processPFramesLoop, hpa] using ih h1a

/-- Witness for the amended C2: with the resolvable `evChampGood` before
the failing `evChampBad`, the frame's output equals the output of the
prefix before the failure. -/
theorem c2_resolution_failure_break_witness :
    processEventsLoop dbA pmapA "M1" ([evChampGood] ++ evChampBad :: [evChampGood]) =
      processEventsLoop dbA pmapA "M1" [evChampGood] :=
  c2_resolution_failure_break.1 dbA pmapA "M1" [evChampGood] evChampBad
    [evChampGood] (by decide) (by decide)

/-- C7: every `BUILDING_KILL` event emitted by Stage 4 carries the
`teamId` of the event payload (the team that lost the structure),
whatever the database contents, the participant map, and hence the
killer's resolved team. -/
theorem c7_building_kill_losing_team (db : DB) (pmap : PMap) (mid : String)
    (e : Event) (te : TimelineEvent)
    (h1 : e.type_ = "BUILDING_KILL")
    (h2 : processEvent db pmap mid e = EventResult.emit te) :
    te.teamId = e.teamId := by
  have hmem : e.type_ ∈ eventTypesToConsider := by rw [h1]; decide
  have hne1 : e.type_ ≠ "ELITE_MONSTER_KILL" := by rw [h1]; decide
  have hne2 : e.type_ ≠ "CHAMPION_KILL" := by rw [h1]; decide
  unfold processEvent processEventInstr at h2
  rw [if_pos hmem] at h2
  rcases hL : getTeamIdTeamPosInstr db (resolveActor pmap e.killerId) mid with ⟨o, q⟩
  rcases o with _ | tp
  · rw [hL] at h2
    simp at h2
  · rw [hL] at h2
    dsimp only at h2
    rw [if_neg hne1, if_neg hne2] at h2
    simp only [EventResult.emit.injEq] at h2
    rw [← h2]

/-- Witness for C7: the concrete building kill `evBuild` has payload
`teamId = 200` while its killer `P1` is stored on team 100; the emitted
row carries 200. -/
theorem c7_witness : teBuildEmitted.teamId = evBuild.teamId :=
  c7_building_kill_losing_team dbA pmapA "M1" evBuild teBuildEmitted rfl rfl

/-- C9: a `CHAMPION_KILL` event with `killerId = 0` is not dropped: it is
emitted with the `"Minion"` sentinel actor, the `None` first component of
the minion resolution as its `teamId`, and the fixed literal `"KILL"` as
its event type. -/
theorem c9_champion_kill_minion (db : DB) (pmap : PMap) (mid : String)
    (e : Event) (h1 : e.type_ = "CHAMPION_KILL") (h2 : e.killerId = some 0) :
    processEvent db pmap mid e =
      EventResult.emit ⟨mid, some "Minion", none, some 0, "", e.posX, e.posY,
        e.timestamp, "CHAMPION_KILL", some "KILL"⟩ := by
  have hmem : e.type_ ∈ eventTypesToConsider := by rw [h1]; decide
  have hres : resolveActor pmap e.killerId = some "Minion" := by
    simp [resolveActor, h2]
  unfold processEvent processEventInstr
  rw [if_pos hmem, hres, h1, h2]
  rfl

/-- Witness for C9: the concrete minion champion kill `evChampMinion` is
emitted as `teChampMinion`. -/
theorem c9_witness :
    processEvent dbA pmapA "M1" evChampMinion =
      EventResult.emit teChampMinion :=
  c9_champion_kill_minion dbA pmapA "M1" evChampMinion rfl rfl

/-- C8: an actor with in-game id 0 (the minion sentinel) never triggers a
participants-table query — the instrumentation bit is `false` — and any
row emitted for it has `teamPosition = ""`.  First conjunct: the event
path, for any database, participant map and event with `killerId = 0`;
second conjunct: the participant-frame path for the sentinel id 0 (whose
`participant_ids` entry is `"Minion"`). -/
theorem c8_minion_no_lookup :
    (∀ (db : DB) (pmap : PMap) (mid : String) (e : Event),
        e.killerId = some 0 →
        (processEventInstr db pmap mid e).2 = false ∧
        ∀ te : TimelineEvent,
          processEvent db pmap mid e = EventResult.emit te →
          te.teamPosition = "") ∧
    (∀ (db : DB) (pmap : PMap) (mid : String) (ts : Int) (pf : PFrame),
        pf.participantId = 0 → pmap 0 = some "Minion" →
        (processPFrameInstr db pmap mid ts pf).2 = false ∧
        ∀ te : TimelineEvent,
          processPFrame db pmap mid ts pf = EventResult.emit te →
          te.teamPosition = "") := by
  constructor
  · intro db pmap mid e hk
    have hres : resolveActor pmap e.killerId = some "Minion" := by
      simp [resolveActor, hk]
    have hmin : getTeamIdTeamPosInstr db (some "Minion") mid =
        (some (none, ""), false) := rfl
    by_cases hmem : e.type_ ∈ eventTypesToConsider
    · unfold processEvent processEventInstr
      rw [if_pos hmem, hres, hmin]
      dsimp only
      constructor
      · split
        · rfl
        · split <;> rfl
      · intro te hte
        split at hte
        · simp only [EventResult.emit.injEq] at hte
          rw [← hte]
        · split at hte <;>
            simp only [EventResult.emit.injEq] at hte <;> rw [← hte]
    · unfold processEvent processEventInstr
      rw [if_neg hmem]
      exact ⟨rfl, fun te hte => by simp at hte⟩
  · intro db pmap mid ts pf h0 hm
    have hres : pmap pf.participantId = some "Minion" := by rw [h0, hm]
    have hmin : getTeamIdTeamPosInstr db (some "Minion") mid =
        (some (none, ""), false) := rfl
    unfold processPFrame processPFrameInstr
    rw [hres, hmin]
    dsimp only
    exact ⟨rfl, fun te hte => by
      simp only [EventResult.emit.injEq] at hte
      rw [← hte]⟩

/-- Witness for C8: the minion champion kill `evChampMinion` against the
adversarial table `dbAdv` (which would answer any query with team 999,
position MID): no query is executed and the emitted row's position is
empty. -/
theorem c8_witness :
    (processEventInstr dbAdv pmapA "M1" evChampMinion).2 = false ∧
    teChampMinion.teamPosition = "" :=
  ⟨(c8_minion_no_lookup.1 dbAdv pmapA "M1" evChampMinion rfl).1,
   (c8_minion_no_lookup.1 dbAdv pmapA "M1" evChampMinion rfl).2
     teChampMinion rfl⟩

/-- C10: the constructor's stage-flag validation raises exactly when some
element of `stages_to_process` is not 0 or 1 or the tuple is longer than
4 (first conjunct); every 0/1 tuple of length at most 3 passes validation,
and its out-of-range stage index only surfaces as an `IndexError` inside
`_collect_data`, after database/schema creation and after the stages the
tuple does cover have already run or been skipped (second conjunct). -/
theorem c10_stage_flag_validation :
    (∀ stages : List Int,
        stagesConfigError stages = true ↔
          ((∃ v ∈ stages, v ≠ 0 ∧ v ≠ 1) ∨ 4 < stages.length)) ∧
    (∀ stages : List Int, (∀ v ∈ stages, v = 0 ∨ v = 1) →
        stages.length ≤ 3 →
        stagesConfigError stages = false ∧
        startPipelineTrace stages =
          [PipeStep.createDatabase, PipeStep.createTables] ++
            ((List.range stages.length).filterMap
              (fun i => if stages[i]? = some 1 then
                some (PipeStep.runStage (i + 1)) else none) ++
             [PipeStep.indexError])) := by
  constructor
  · intro stages
    simp only [stagesConfigError, List.any_eq_true, Bool.or_eq_true,
      Bool.not_eq_eq_eq_not, Bool.not_true, Bool.or_eq_false_iff,
      beq_eq_false_iff_ne, ne_eq, decide_eq_true_eq]
    constructor
    · rintro ⟨v, hv, h | h⟩
      · exact Or.inl ⟨v, hv, h⟩
      · exact Or.inr h
    · rintro (⟨v, hv, h⟩ | h)
      · exact ⟨v, hv, Or.inl h⟩
      · obtain ⟨v, hv⟩ := List.exists_mem_of_length_pos
          (show 0 < stages.length by omega)
        exact ⟨v, hv, Or.inr h⟩
  · intro stages hval hlen
    rcases stages with _ | ⟨a, _ | ⟨b, _ | ⟨c, _ | ⟨d, rest⟩⟩⟩⟩
    · exact ⟨rfl, rfl⟩
    · rcases hval a (by simp) with rfl | rfl <;> exact ⟨rfl, rfl⟩
    · rcases hval a (by simp) with rfl | rfl <;>
        rcases hval b (by simp) with rfl | rfl <;> exact ⟨rfl, rfl⟩
    · rcases hval a (by simp) with rfl | rfl <;>
        rcases hval b (by simp) with rfl | rfl <;>
          rcases hval c (by simp) with rfl | rfl <;> exact ⟨rfl, rfl⟩
    · simp only [List.length_cons] at hlen; omega

/-- Witness for C10: the length-2 tuple `(1, 0)` passes validation, and the
pipeline creates the schema, runs Stage 1, skips Stage 2, and only then
hits the out-of-range index. -/
theorem c10_witness :
    stagesConfigError [1, 0] = false ∧
    startPipelineTrace [1, 0] =
      [PipeStep.createDatabase, PipeStep.createTables] ++
        ((List.range 2).filterMap
          (fun i => if [(1 : Int), 0][i]? = some 1 then
            some (PipeStep.runStage (i + 1)) else none) ++
         [PipeStep.indexError]) :=
  c10_stage_flag_validation.2 [1, 0] (by decide) (by decide)

end RiotPipeline
